import Mathlib

/-!
Shallow embedding of `pl_dalle/modules/losses/patch.py`.

Tensors are modelled as a shape (list of dimension sizes) together with a
flat row-major data list of exact rationals; the exact-arithmetic identities
claimed for the hinge losses hold verbatim over ℚ.  The convolutional base
pipeline of `PatchDiscriminator` is modelled at two levels:

* a shape-level semantics (`patchDiscForwardShape`), one transfer function per
  layer of the `blocks` Sequential, faithful to each layer's shape behaviour
  (kornia `RandomCrop`, `nn.Conv2d`, `ResBlock`, `nn.AvgPool2d`, `nn.Flatten`,
  `nn.Linear`) including the failure conditions each layer raises on;

* for the loss methods, whose dataflow is independent of the network's
  learned weights and of the random crop, the base network `self.blocks` is a
  parameter `net : Tensor → Option (List ℚ)` (`none` models an error raised
  inside the underlying tensor library; the base pipeline contains no
  `assert` statement, so its failures are never assertion failures).
-/

namespace PatchLosses

/-- `F.relu` on one exact scalar. -/
def relu (x : ℚ) : ℚ := max x 0

/-- `torch.mean` of a flat list of scalars (division by zero yields 0 in ℚ). -/
def mean (l : List ℚ) : ℚ := l.sum / (l.length : ℚ)

/-- `hinge_d_loss(logits_real, logits_fake)` from the source:
`0.5 * (mean(relu(1 - logits_real)) + mean(relu(1 + logits_fake)))`. -/
def hinge_d_loss (logits_real logits_fake : List ℚ) : ℚ :=
  let loss_real := mean (logits_real.map (fun x => relu (1 - x)))
  let loss_fake := mean (logits_fake.map (fun x => relu (1 + x)))
  (1 / 2) * (loss_real + loss_fake)

/-- `hinge_g_loss(logits_fake) = mean(relu(1 - logits_fake))` from the source. -/
def hinge_g_loss (logits_fake : List ℚ) : ℚ :=
  mean (logits_fake.map (fun x => relu (1 - x)))

/-- A tensor: shape `[d0, d1, ...]` plus row-major data. -/
structure Tensor where
  shape : List ℕ
  data : List ℚ
deriving DecidableEq, Repr

/-- `t.numel()`: the product of the dimension sizes. -/
def Tensor.numel (t : Tensor) : ℕ := t.shape.prod

/-! ### Shape-level semantics of the layers of `PatchDiscriminator.blocks` -/

/-- `K.RandomCrop((p, p), cropping_mode='resample')`: accepts a 4-D batch
`[n, c, h, w]` with `h, w ≥ p` and emits `[n, c, p, p]`; any other rank or a
too-small spatial extent raises. -/
def cropShape (p : ℕ) : List ℕ → Option (List ℕ)
  | [n, c, h, w] => if 0 < p ∧ p ≤ h ∧ p ≤ w then some [n, c, p, p] else none
  | _ => none

/-- `nn.Conv2d(cin, cout, k, padding=pad)` on a 4-D input: requires the
channel count to match and the padded extent to cover the kernel; output
spatial size is `h + 2*pad - k + 1`. -/
def conv2dShape (cin cout k pad : ℕ) : List ℕ → Option (List ℕ)
  | [n, c, h, w] =>
    if c = cin ∧ 0 < k ∧ k ≤ h + 2 * pad ∧ k ≤ w + 2 * pad then
      some [n, cout, h + 2 * pad + 1 - k, w + 2 * pad + 1 - k]
    else none
  | _ => none

/-- `ResBlock(in_channel, channel)`: ReLU, 3×3 conv (padding 1) to `channel`,
ReLU, 1×1 conv back to `in_channel`, then `out += input` (requires the conv
output shape to equal the input shape). -/
def resBlockShape (in_channel channel : ℕ) (s : List ℕ) : Option (List ℕ) := do
  let s1 ← conv2dShape in_channel channel 3 1 s
  let s2 ← conv2dShape channel in_channel 1 0 s1
  if s2 = s then some s else none

/-- The `n_res_block` ResBlocks appended by the constructor loop. -/
def iterResBlocks (channel n_res_channel : ℕ) : ℕ → List ℕ → Option (List ℕ)
  | 0, s => some s
  | n + 1, s => do iterResBlocks channel n_res_channel n (← resBlockShape channel n_res_channel s)

/-- `nn.AvgPool2d(k)` (stride defaults to the kernel size): requires a 4-D
input with spatial extent at least `k`; output spatial size `⌊h / k⌋`. -/
def avgPool2dShape (k : ℕ) : List ℕ → Option (List ℕ)
  | [n, c, h, w] => if 0 < k ∧ k ≤ h ∧ k ≤ w then some [n, c, h / k, w / k] else none
  | _ => none

/-- `nn.Flatten()` with the default `start_dim=1`. -/
def flattenShape : List ℕ → Option (List ℕ)
  | [] => none
  | n :: rest => if rest = [] then none else some [n, rest.prod]

/-- `nn.Linear(din, dout)`: acts on the last dimension, which must be `din`. -/
def linearShape (din dout : ℕ) (s : List ℕ) : Option (List ℕ) :=
  match s.getLast? with
  | some d => if d = din then some (s.dropLast ++ [dout]) else none
  | none => none

/-- Shape semantics of `PatchDiscriminator.forward` = `self.blocks(input)`:
the layers in the exact order the constructor assembles them.  Note the
final layer is `nn.Linear(channel, 1)` as written in the source. -/
def patchDiscForwardShape (patch_size in_channel channel n_res_block n_res_channel
    n_pool_channel : ℕ) (s : List ℕ) : Option (List ℕ) := do
  let s ← cropShape patch_size s
  let s ← conv2dShape in_channel channel 3 1 s
  let s ← iterResBlocks channel n_res_channel n_res_block s
  let s ← conv2dShape channel n_pool_channel 1 0 s
  let s ← avgPool2dShape (patch_size / 4) s
  let s ← flattenShape s
  let s ← linearShape (n_pool_channel * 4 * 4) n_pool_channel s
  linearShape channel 1 s

/-! ### Value-level loss methods -/

/-- Errors a loss method can surface: a failed `assert` statement, or an
error raised by the underlying tensor library (reshape/stack/pipeline). -/
inductive PErr
  | assertFail
  | shapeErr
deriving DecidableEq, Repr

/-- `torch.stack([x, y], dim=1)`: requires equal shapes of rank at least 1;
the result has a new axis of size 2 inserted at position 1, with data
interleaved per leading-index slice. -/
def Tensor.stackDim1 (x y : Tensor) : Option Tensor :=
  match x.shape with
  | [] => none
  | n :: rest =>
    if x.shape = y.shape then
      let c := rest.prod
      some ⟨n :: 2 :: rest,
        (List.range n).flatMap (fun i =>
          ((x.data.drop (i * c)).take c) ++ ((y.data.drop (i * c)).take c))⟩
    else none

/-- `PatchDiscriminator.d_loss(reals, fakes)`: two forward calls, then
`hinge_d_loss(real_preds, fake_preds)`.  `net` is `self.forward`. -/
def PD_d_loss (net : Tensor → Option (List ℚ)) (reals fakes : Tensor) : Option ℚ := do
  let real_preds ← net reals
  let fake_preds ← net fakes
  some (hinge_d_loss real_preds fake_preds)

/-- `PatchDiscriminator.g_loss(fakes) = hinge_g_loss(self.forward(fakes))`. -/
def PD_g_loss (net : Tensor → Option (List ℚ)) (fakes : Tensor) : Option ℚ := do
  some (hinge_g_loss (← net fakes))

/-- `PatchReconstructionDiscriminator.forward(x, y)`: `assert x.shape == y.shape`,
then `torch.stack([x, y], dim=1)` and delegation to the base pipeline `net`. -/
def PRD_forward (net : Tensor → Option (List ℚ)) (x y : Tensor) : Except PErr (List ℚ) :=
  if x.shape = y.shape then
    match x.stackDim1 y with
    | some input =>
      match net input with
      | some logits => .ok logits
      | none => .error .shapeErr
    | none => .error .shapeErr
  else .error .assertFail

/-- `t.reshape(2, -1, in_channel, patch_size, patch_size)` followed by the
tuple unpacking `t_1, t_2 = ...` along axis 0.  The `-1` dimension is
inferred: the reshape succeeds exactly when the product of the known
dimensions is nonzero and divides `t.numel()`. -/
def prdReshapeHalves (in_channel patch_size : ℕ) (t : Tensor) : Option (Tensor × Tensor) :=
  let d := 2 * (in_channel * (patch_size * patch_size))
  if d ≠ 0 ∧ t.numel % d = 0 then
    let k := t.numel / d
    let half := k * (in_channel * (patch_size * patch_size))
    some (⟨[k, in_channel, patch_size, patch_size], t.data.take half⟩,
          ⟨[k, in_channel, patch_size, patch_size], (t.data.drop half).take half⟩)
  else none

/-- `PatchReconstructionDiscriminator.d_loss(reals, fakes)`: assert equal
shapes, reshape each input into two halves, score
`forward(reals_1, fakes_1)` and `forward(fakes_1, reals_1)`, and return
`hinge_d_loss(logits_real, logits_fake)`. -/
def PRD_d_loss (net : Tensor → Option (List ℚ)) (in_channel patch_size : ℕ)
    (reals fakes : Tensor) : Except PErr ℚ :=
  if reals.shape = fakes.shape then
    match prdReshapeHalves in_channel patch_size reals,
          prdReshapeHalves in_channel patch_size fakes with
    | some (reals_1, _reals_2), some (fakes_1, _fakes_2) => do
      let logits_real ← PRD_forward net reals_1 fakes_1
      let logits_fake ← PRD_forward net fakes_1 reals_1
      .ok (hinge_d_loss logits_real logits_fake)
    | _, _ => .error .shapeErr
  else .error .assertFail

/-- `PatchReconstructionDiscriminator.g_loss(reals, fakes)`: same reshape and
forward calls as `d_loss`, but the hinge formula receives the logit sets in
swapped positions: `hinge_d_loss(logits_fake, logits_real)`. -/
def PRD_g_loss (net : Tensor → Option (List ℚ)) (in_channel patch_size : ℕ)
    (reals fakes : Tensor) : Except PErr ℚ :=
  if reals.shape = fakes.shape then
    match prdReshapeHalves in_channel patch_size reals,
          prdReshapeHalves in_channel patch_size fakes with
    | some (reals_1, _reals_2), some (fakes_1, _fakes_2) => do
      let logits_real ← PRD_forward net reals_1 fakes_1
      let logits_fake ← PRD_forward net fakes_1 reals_1
      .ok (hinge_d_loss logits_fake logits_real)
    | _, _ => .error .shapeErr
  else .error .assertFail

/-- Shape-level `PatchReconstructionDiscriminator.forward`: stack then the
base pipeline, which the subclass constructor builds with `in_channel * 2`
input channels and the default `n_pool_channel = 64`. -/
def stackDim1Shape : List ℕ → List ℕ → Option (List ℕ)
  | [], _ => none
  | n :: rest, s2 => if n :: rest = s2 then some (n :: 2 :: rest) else none

/-- Shape semantics of `PatchReconstructionDiscriminator.forward(x, y)` for
equal-shaped inputs. -/
def prdForwardShape (patch_size in_channel channel n_res_block n_res_channel : ℕ)
    (sx sy : List ℕ) : Option (List ℕ) :=
  if sx = sy then
    match stackDim1Shape sx sy with
    | some s =>
      patchDiscForwardShape patch_size (in_channel * 2) channel n_res_block n_res_channel 64 s
    | none => none
  else none

/-! ### The constructor's spectral-normalization loop -/

/-- The kind of an `nn.Module` appearing in `self.modules()`. -/
inductive LayerKind
  | randomCrop
  | conv2d
  | reluLayer
  | avgPool
  | flattenLayer
  | linear
  | container
deriving DecidableEq, Repr

/-- A module object; `sn` records whether a spectral-norm hook has been
registered on it. -/
structure PyModule where
  kind : LayerKind
  sn : Bool
deriving DecidableEq, Repr

def isConvOrLinear (m : PyModule) : Bool :=
  m.kind = LayerKind.conv2d || m.kind = LayerKind.linear

/-- `nn.utils.spectral_norm(module)` registers the reparameterization and the
forward pre-hook on the very module it is given (mutating it in place) and
returns that same module. -/
def spectral_norm (m : PyModule) : PyModule := { m with sn := true }

/-- The constructor loop
`for module in self.modules(): if isinstance(module, (Conv2d, Linear)): module = spectral_norm(module)`.
Because `spectral_norm` mutates its argument in place, every Conv2d/Linear
object in the module tree is updated; the rebinding of the loop-local name
`module` to the returned (same) object has no further effect. -/
def applySpectralNormLoop (ms : List PyModule) : List PyModule :=
  ms.map (fun m => if isConvOrLinear m then spectral_norm m else m)

/-- The submodules a `ResBlock` contributes to `self.modules()`: the block
itself, its `nn.Sequential`, and the four layers inside. -/
def resBlockModules : List PyModule :=
  [⟨.container, false⟩, ⟨.container, false⟩, ⟨.reluLayer, false⟩, ⟨.conv2d, false⟩,
   ⟨.reluLayer, false⟩, ⟨.conv2d, false⟩]

/-- `self.modules()` of a freshly assembled `PatchDiscriminator`: the model,
its `blocks` Sequential, and every layer in construction order. -/
def patchDiscModules (n_res_block : ℕ) : List PyModule :=
  [⟨.container, false⟩, ⟨.container, false⟩, ⟨.randomCrop, false⟩, ⟨.conv2d, false⟩]
    ++ (List.replicate n_res_block resBlockModules).flatten
    ++ [⟨.reluLayer, false⟩, ⟨.conv2d, false⟩, ⟨.avgPool, false⟩, ⟨.flattenLayer, false⟩,
        ⟨.linear, false⟩, ⟨.reluLayer, false⟩, ⟨.linear, false⟩]

/-! ### Helper lemmas -/

theorem mean_eq_zero_of_all_zero (l : List ℚ) (h : ∀ x ∈ l, x = 0) : mean l = 0 := by
  have hs : l.sum = 0 := List.sum_eq_zero h
  simp [mean, hs]

theorem relu_of_nonpos {x : ℚ} (h : x ≤ 0) : relu x = 0 :=
  max_eq_right h

/-! ### Claims about the hinge losses -/

/-- Claim C2: `hinge_d_loss` is exactly
`0.5 * (mean(relu(1 - logits_real)) + mean(relu(1 + logits_fake)))`, and
`PatchDiscriminator.d_loss` is that loss applied to the logits produced by
the two independent forward calls on `reals` and on `fakes`. -/
theorem C2_hinge_d_loss_and_PD_d_loss
    (a b : List ℚ) (net : Tensor → Option (List ℚ)) (reals fakes : Tensor)
    (lr lf : List ℚ) :
    hinge_d_loss a b =
      (1 / 2) * (mean (a.map (fun x => relu (1 - x))) + mean (b.map (fun x => relu (1 + x))))
    ∧ (net reals = some lr → net fakes = some lf →
        PD_d_loss net reals fakes = some (hinge_d_loss lr lf)) := by
  refine ⟨rfl, fun hr hf => ?_⟩
  simp [PD_d_loss, hr, hf]

theorem C2_hinge_d_loss_and_PD_d_loss_witness :
    PD_d_loss (fun t => some t.data) ⟨[2], [2, 0]⟩ ⟨[2], [-2, 0]⟩ =
      some (hinge_d_loss [2, 0] [-2, 0]) :=
  (C2_hinge_d_loss_and_PD_d_loss [2, 0] [-2, 0] (fun t => some t.data)
    ⟨[2], [2, 0]⟩ ⟨[2], [-2, 0]⟩ [2, 0] [-2, 0]).2 rfl rfl

/-- Claim C7: `hinge_g_loss(x) = mean(relu(1 - x))`; on the literal vector
`[0.5, 2.0]` it evaluates to `0.25`; and `PatchDiscriminator.g_loss` returns
`mean(relu(1 - logits_fake))` for the logits produced by `forward(fakes)`. -/
theorem C7_hinge_g_loss
    (x : List ℚ) (net : Tensor → Option (List ℚ)) (fakes : Tensor) (lf : List ℚ) :
    hinge_g_loss x = mean (x.map (fun t => relu (1 - t)))
    ∧ hinge_g_loss [1 / 2, 2] = 1 / 4
    ∧ (net fakes = some lf →
        PD_g_loss net fakes = some (mean (lf.map (fun t => relu (1 - t))))) := by
  refine ⟨rfl, ?_, fun hf => ?_⟩
  · norm_num [hinge_g_loss, mean, relu]
  · simp [PD_g_loss, hf, hinge_g_loss]

theorem C7_hinge_g_loss_witness :
    PD_g_loss (fun t => some t.data) ⟨[2], [1/2, 2]⟩ =
      some (mean (([(1 : ℚ)/2, 2]).map (fun t => relu (1 - t)))) :=
  (C7_hinge_g_loss [1/2, 2] (fun t => some t.data) ⟨[2], [1/2, 2]⟩ [1/2, 2]).2.2 rfl

/-- Claim C8: whenever every real logit is at least 1 and every fake logit is
at most −1, `hinge_d_loss` returns exactly 0. -/
theorem C8_hinge_d_loss_zero
    (logits_real logits_fake : List ℚ)
    (hr : ∀ x ∈ logits_real, 1 ≤ x) (hf : ∀ x ∈ logits_fake, x ≤ -1) :
    hinge_d_loss logits_real logits_fake = 0 := by
  have h1 : mean (logits_real.map (fun x => relu (1 - x))) = 0 := by
    refine mean_eq_zero_of_all_zero _ ?_
    intro y hy
    rcases List.mem_map.1 hy with ⟨x, hx, rfl⟩
    exact relu_of_nonpos (by linarith [hr x hx])
  have h2 : mean (logits_fake.map (fun x => relu (1 + x))) = 0 := by
    refine mean_eq_zero_of_all_zero _ ?_
    intro y hy
    rcases List.mem_map.1 hy with ⟨x, hx, rfl⟩
    exact relu_of_nonpos (by linarith [hf x hx])
  simp [hinge_d_loss, h1, h2]

theorem C8_hinge_d_loss_zero_witness :
    hinge_d_loss [1, 2] [-1, -3] = 0 :=
  C8_hinge_d_loss_zero [1, 2] [-1, -3] (by norm_num) (by norm_num)

/-- Claim C3 (code bug): with the spec's end-to-end configuration
(`patch_size=16, in_channel=3, channel=32, n_res_block=2, n_res_channel=16`,
default `n_pool_channel=64`), `forward` on a `[4, 3, 32, 32]` batch fails:
the head's first `Linear` maps the flattened `[4, 1024]` activations to
`[4, 64]`, but the final layer is written `nn.Linear(channel, 1)` with
`channel = 32` and rejects the 64 incoming features.  With the evidently
intended input width `n_pool_channel = 64` the final layer would complete
the pipeline to one logit per image, `[4, 1]`. -/
theorem C3_forward_final_linear_bug :
    patchDiscForwardShape 16 3 32 2 16 64 [4, 3, 32, 32] = none
    ∧ linearShape (64 * 4 * 4) 64 [4, 1024] = some [4, 64]
    ∧ linearShape 32 1 [4, 64] = none
    ∧ linearShape 64 1 [4, 64] = some [4, 1] := by
  refine ⟨?_, by decide, by decide, by decide⟩
  decide

/-- Claim C4 (code bug): `PatchReconstructionDiscriminator.forward` stacks
`x` and `y` with `torch.stack(dim=1)`, which inserts a new axis of size 2
(`[1, 2, 3, 16, 16]`) instead of doubling the channel dimension; the base
pipeline (built for `in_channel * 2` channels of 4-D input) rejects the 5-D
tensor, so no logit is produced.  Had the pair been combined along the
channel axis (`[1, 6, 16, 16]`), the doubled-channel pipeline would succeed
with one logit per pair. -/
theorem C4_forward_stack_bug :
    prdForwardShape 16 3 64 1 16 [1, 3, 16, 16] [1, 3, 16, 16] = none
    ∧ stackDim1Shape [1, 3, 16, 16] [1, 3, 16, 16] = some [1, 2, 3, 16, 16]
    ∧ patchDiscForwardShape 16 (3 * 2) 64 1 16 64 [1, 2, 3, 16, 16] = none
    ∧ patchDiscForwardShape 16 (3 * 2) 64 1 16 64 [1, 6, 16, 16] = some [1, 1] := by
  refine ⟨by decide, by decide, by decide, by decide⟩

theorem applySpectralNormLoop_all (ms : List PyModule) :
    ∀ m ∈ applySpectralNormLoop ms, isConvOrLinear m = true → m.sn = true := by
  intro m hm hcl
  rcases List.mem_map.1 hm with ⟨m0, _hm0, rfl⟩
  by_cases h : isConvOrLinear m0 = true
  · simp [h, spectral_norm]
  · rw [if_neg h] at hcl
    exact absurd hcl h

/-- Claim C5: of the two mutually exclusive readings — (a) spectral
normalization is applied to every convolution and linear layer of the
constructed `PatchDiscriminator`, (b) the constructor's `spectral_norm` call
is a no-op and no layer is normalized — exactly (a) holds: `spectral_norm`
registers its hook on the module object in place, so every `Conv2d`/`Linear`
in `self.modules()` ends up normalized even though the returned module is
only bound to the loop-local name. -/
theorem C5_spectral_norm_applied (n_res_block : ℕ) :
    (∀ m ∈ applySpectralNormLoop (patchDiscModules n_res_block),
        isConvOrLinear m = true → m.sn = true)
    ∧ ¬ (∀ m ∈ applySpectralNormLoop (patchDiscModules n_res_block),
        isConvOrLinear m = true → m.sn = false) := by
  refine ⟨applySpectralNormLoop_all _, fun hno => ?_⟩
  have hmem0 : (⟨.conv2d, false⟩ : PyModule) ∈ patchDiscModules n_res_block := by
    simp [patchDiscModules]
  have hmem : (⟨.conv2d, true⟩ : PyModule) ∈ applySpectralNormLoop (patchDiscModules n_res_block) := by
    have := List.mem_map_of_mem
      (fun m => if isConvOrLinear m then spectral_norm m else m) hmem0
    simpa [applySpectralNormLoop, spectral_norm, isConvOrLinear] using this
  exact absurd (hno _ hmem (by decide)) (by decide)

theorem C5_spectral_norm_applied_witness :
    (⟨LayerKind.conv2d, true⟩ : PyModule).sn = true :=
  (C5_spectral_norm_applied 0).1 ⟨LayerKind.conv2d, true⟩ (by decide) (by decide)

/-- Claim C9: `ResBlock(in_channel, channel).forward` maps any valid input of
shape `[n, c, h, w]` with `c` equal to the constructed `in_channel` (and
nonempty spatial extent) to an output of exactly the input shape: the 3×3
convolution with padding 1 preserves the spatial size, the 1×1 convolution
maps back to `in_channel`, and the residual addition is well-defined. -/
theorem C9_resBlock_preserves_shape (n c h w in_channel channel : ℕ)
    (hc : c = in_channel) (hh : 1 ≤ h) (hw : 1 ≤ w) :
    resBlockShape in_channel channel [n, c, h, w] = some [n, c, h, w] := by
  subst hc
  have e1 : h + 2 * 1 + 1 - 3 = h := by omega
  have e2 : w + 2 * 1 + 1 - 3 = w := by omega
  have c1 : 3 ≤ h + 2 * 1 := by omega
  have c2 : 3 ≤ w + 2 * 1 := by omega
  have c3 : (1 : ℕ) ≤ h + 2 * 0 := by omega
  have c4 : (1 : ℕ) ≤ w + 2 * 0 := by omega
  simp [resBlockShape, conv2dShape, e1, e2, c1, c2, c3, c4, hh, hw]

theorem C9_resBlock_preserves_shape_witness :
    resBlockShape 3 7 [1, 3, 5, 5] = some [1, 3, 5, 5] :=
  C9_resBlock_preserves_shape 1 3 5 5 3 7 rfl (by norm_num) (by norm_num)

/-! ### Lemmas about the reconstruction discriminator's reshape step -/

theorem prdReshapeHalves_of_dvd (in_channel patch_size : ℕ) (t : Tensor)
    (hd : 2 * (in_channel * (patch_size * patch_size)) ≠ 0)
    (hdvd : 2 * (in_channel * (patch_size * patch_size)) ∣ t.numel) :
    prdReshapeHalves in_channel patch_size t =
      some (⟨[t.numel / (2 * (in_channel * (patch_size * patch_size))),
              in_channel, patch_size, patch_size], t.data.take (t.numel / 2)⟩,
            ⟨[t.numel / (2 * (in_channel * (patch_size * patch_size))),
              in_channel, patch_size, patch_size],
              (t.data.drop (t.numel / 2)).take (t.numel / 2)⟩) := by
  have hdpos : 0 < 2 * (in_channel * (patch_size * patch_size)) := Nat.pos_of_ne_zero hd
  have hmod : t.numel % (2 * (in_channel * (patch_size * patch_size))) = 0 :=
    Nat.dvd_iff_mod_eq_zero.mp hdvd
  have hhalf : t.numel / (2 * (in_channel * (patch_size * patch_size))) *
      (in_channel * (patch_size * patch_size)) = t.numel / 2 := by
    obtain ⟨k, hk⟩ := hdvd
    rw [hk, Nat.mul_div_cancel_left _ hdpos, mul_assoc,
      Nat.mul_div_cancel_left _ (by norm_num : (0:ℕ) < 2), mul_comm]
  simp [prdReshapeHalves, hd, hmod, hhalf]

theorem prdReshapeHalves_shape {in_channel patch_size : ℕ} {t a b : Tensor}
    (h : prdReshapeHalves in_channel patch_size t = some (a, b)) :
    a.shape = [t.numel / (2 * (in_channel * (patch_size * patch_size))),
               in_channel, patch_size, patch_size] := by
  simp only [prdReshapeHalves] at h
  split at h
  · injection h with h
    injection h with h1 _h2
    rw [← h1]
  · exact absurd h (by simp)

theorem except_error_bind {α β : Type} (e : PErr) (f : α → Except PErr β) :
    (Except.error e >>= f) = Except.error e := rfl

theorem except_ok_bind {α β : Type} (a : α) (f : α → Except PErr β) :
    (Except.ok a >>= f) = f a := rfl

theorem bind_ne_assertFail {α β : Type} {e : Except PErr α} {f : α → Except PErr β}
    (he : e ≠ Except.error PErr.assertFail)
    (hf : ∀ a, f a ≠ Except.error PErr.assertFail) :
    (e >>= f) ≠ Except.error PErr.assertFail := by
  cases e with
  | error err =>
    rw [except_error_bind]
    intro hc
    injection hc with hc
    exact he (by rw [hc])
  | ok a =>
    rw [except_ok_bind]
    exact hf a

theorem PRD_forward_ne_assert (net : Tensor → Option (List ℚ)) {x y : Tensor}
    (h : x.shape = y.shape) :
    PRD_forward net x y ≠ Except.error PErr.assertFail := by
  rw [PRD_forward, if_pos h]
  cases hst : x.stackDim1 y with
  | none => simp
  | some input =>
    cases hnet : net input with
    | none => simp [hnet]
    | some logits => simp [hnet]

theorem PRD_d_loss_of_halves (net : Tensor → Option (List ℚ)) (in_channel patch_size : ℕ)
    {reals fakes r1 r2 f1 f2 : Tensor}
    (hs : reals.shape = fakes.shape)
    (hr : prdReshapeHalves in_channel patch_size reals = some (r1, r2))
    (hf : prdReshapeHalves in_channel patch_size fakes = some (f1, f2)) :
    PRD_d_loss net in_channel patch_size reals fakes =
      (do
        let logits_real ← PRD_forward net r1 f1
        let logits_fake ← PRD_forward net f1 r1
        Except.ok (hinge_d_loss logits_real logits_fake)) := by
  rw [PRD_d_loss, if_pos hs, hr, hf]

theorem PRD_g_loss_of_halves (net : Tensor → Option (List ℚ)) (in_channel patch_size : ℕ)
    {reals fakes r1 r2 f1 f2 : Tensor}
    (hs : reals.shape = fakes.shape)
    (hr : prdReshapeHalves in_channel patch_size reals = some (r1, r2))
    (hf : prdReshapeHalves in_channel patch_size fakes = some (f1, f2)) :
    PRD_g_loss net in_channel patch_size reals fakes =
      (do
        let logits_real ← PRD_forward net r1 f1
        let logits_fake ← PRD_forward net f1 r1
        Except.ok (hinge_d_loss logits_fake logits_real)) := by
  rw [PRD_g_loss, if_pos hs, hr, hf]

theorem Tensor.numel_congr {s t : Tensor} (h : s.shape = t.shape) : s.numel = t.numel := by
  rw [Tensor.numel, Tensor.numel, h]

/-- Claim C1: for equal-shaped inputs (with the reshape's divisibility
condition), `PatchReconstructionDiscriminator.d_loss` reshapes each input
into two halves along the batch axis, scores `forward(reals_1, fakes_1)` as
the real ordering and `forward(fakes_1, reals_1)` as the fake (swapped)
ordering, and returns `hinge_d_loss(logits_real, logits_fake)`; `g_loss`
performs the same reshapes and forward calls but hands the two logit sets to
the hinge formula in swapped positions.  Moreover the second halves never
influence either result: inputs that agree on shape and on the first half of
their data yield identical `d_loss` and `g_loss`. -/
theorem C1_PRD_loss_structure
    (net : Tensor → Option (List ℚ)) (in_channel patch_size : ℕ)
    (reals fakes reals2 fakes2 : Tensor)
    (hC : 0 < in_channel) (hp : 0 < patch_size)
    (hs : reals.shape = fakes.shape)
    (hdvd : 2 * (in_channel * (patch_size * patch_size)) ∣ reals.numel)
    (hrs : reals2.shape = reals.shape) (hfs : fakes2.shape = fakes.shape)
    (hrd : reals2.data.take (reals.numel / 2) = reals.data.take (reals.numel / 2))
    (hfd : fakes2.data.take (fakes.numel / 2) = fakes.data.take (fakes.numel / 2)) :
    (∃ r1 r2 f1 f2 : Tensor,
      prdReshapeHalves in_channel patch_size reals = some (r1, r2)
      ∧ prdReshapeHalves in_channel patch_size fakes = some (f1, f2)
      ∧ PRD_d_loss net in_channel patch_size reals fakes =
          (do
            let logits_real ← PRD_forward net r1 f1
            let logits_fake ← PRD_forward net f1 r1
            Except.ok (hinge_d_loss logits_real logits_fake))
      ∧ PRD_g_loss net in_channel patch_size reals fakes =
          (do
            let logits_real ← PRD_forward net r1 f1
            let logits_fake ← PRD_forward net f1 r1
            Except.ok (hinge_d_loss logits_fake logits_real)))
    ∧ PRD_d_loss net in_channel patch_size reals2 fakes2 =
        PRD_d_loss net in_channel patch_size reals fakes
    ∧ PRD_g_loss net in_channel patch_size reals2 fakes2 =
        PRD_g_loss net in_channel patch_size reals fakes := by
  have hd : 2 * (in_channel * (patch_size * patch_size)) ≠ 0 := by positivity
  have hnumf : fakes.numel = reals.numel := Tensor.numel_congr hs.symm
  have hnumr2 : reals2.numel = reals.numel := Tensor.numel_congr hrs
  have hnumf2 : fakes2.numel = fakes.numel := Tensor.numel_congr hfs
  have hdvdf : 2 * (in_channel * (patch_size * patch_size)) ∣ fakes.numel := by
    rw [hnumf]; exact hdvd
  have hdvdr2 : 2 * (in_channel * (patch_size * patch_size)) ∣ reals2.numel := by
    rw [hnumr2]; exact hdvd
  have hdvdf2 : 2 * (in_channel * (patch_size * patch_size)) ∣ fakes2.numel := by
    rw [hnumf2, hnumf]; exact hdvd
  have hr := prdReshapeHalves_of_dvd in_channel patch_size reals hd hdvd
  have hf := prdReshapeHalves_of_dvd in_channel patch_size fakes hd hdvdf
  have hr2 := prdReshapeHalves_of_dvd in_channel patch_size reals2 hd hdvdr2
  have hf2 := prdReshapeHalves_of_dvd in_channel patch_size fakes2 hd hdvdf2
  rw [hnumr2, hrd] at hr2
  rw [hnumf2, hfd] at hf2
  have hs2 : reals2.shape = fakes2.shape := by rw [hrs, hfs]; exact hs
  refine ⟨⟨_, _, _, _, hr, hf,
    PRD_d_loss_of_halves net in_channel patch_size hs hr hf,
    PRD_g_loss_of_halves net in_channel patch_size hs hr hf⟩, ?_, ?_⟩
  · rw [PRD_d_loss_of_halves net in_channel patch_size hs2 hr2 hf2,
      PRD_d_loss_of_halves net in_channel patch_size hs hr hf]
  · rw [PRD_g_loss_of_halves net in_channel patch_size hs2 hr2 hf2,
      PRD_g_loss_of_halves net in_channel patch_size hs hr hf]

theorem C1_PRD_loss_structure_witness :
    PRD_d_loss (fun t => some t.data) 1 1 ⟨[2, 1, 1, 1], [3, 50]⟩ ⟨[2, 1, 1, 1], [4, 60]⟩ =
      PRD_d_loss (fun t => some t.data) 1 1 ⟨[2, 1, 1, 1], [3, 5]⟩ ⟨[2, 1, 1, 1], [4, 6]⟩ :=
  (C1_PRD_loss_structure (fun t => some t.data) 1 1
    ⟨[2, 1, 1, 1], [3, 5]⟩ ⟨[2, 1, 1, 1], [4, 6]⟩
    ⟨[2, 1, 1, 1], [3, 50]⟩ ⟨[2, 1, 1, 1], [4, 60]⟩
    (by decide) (by decide) rfl (by decide) rfl rfl (by decide) (by decide)).2.1

/-- Claim C6: `PatchReconstructionDiscriminator.forward(x, y)` hits its
`assert` exactly on unequal shapes, and `d_loss`/`g_loss` hit theirs exactly
on unequal input shapes; for equal shapes no assertion in the module fails
(any remaining failure is a tensor-library error, and the forward calls
inside `d_loss`/`g_loss` always receive the two equal-shaped first halves). -/
theorem C6_assertion_behaviour
    (net : Tensor → Option (List ℚ)) (in_channel patch_size : ℕ)
    (x y reals fakes : Tensor) :
    (x.shape ≠ y.shape → PRD_forward net x y = Except.error PErr.assertFail)
    ∧ (reals.shape ≠ fakes.shape →
        PRD_d_loss net in_channel patch_size reals fakes = Except.error PErr.assertFail
        ∧ PRD_g_loss net in_channel patch_size reals fakes = Except.error PErr.assertFail)
    ∧ (x.shape = y.shape → PRD_forward net x y ≠ Except.error PErr.assertFail)
    ∧ (reals.shape = fakes.shape →
        PRD_d_loss net in_channel patch_size reals fakes ≠ Except.error PErr.assertFail
        ∧ PRD_g_loss net in_channel patch_size reals fakes ≠ Except.error PErr.assertFail) := by
  refine ⟨fun h => ?_, fun h => ⟨?_, ?_⟩, fun h => PRD_forward_ne_assert net h, fun h => ⟨?_, ?_⟩⟩
  · rw [PRD_forward, if_neg h]
  · rw [PRD_d_loss, if_neg h]
  · rw [PRD_g_loss, if_neg h]
  · rw [PRD_d_loss, if_pos h]
    cases hr : prdReshapeHalves in_channel patch_size reals with
    | none => simp
    | some pr =>
      cases hf : prdReshapeHalves in_channel patch_size fakes with
      | none => simp
      | some pf =>
        obtain ⟨r1, r2⟩ := pr
        obtain ⟨f1, f2⟩ := pf
        simp only
        have hshapes : r1.shape = f1.shape := by
          rw [prdReshapeHalves_shape hr, prdReshapeHalves_shape hf, Tensor.numel_congr h]
        exact bind_ne_assertFail (PRD_forward_ne_assert net hshapes)
          (fun lr => bind_ne_assertFail (PRD_forward_ne_assert net hshapes.symm)
            (fun lf h => Except.noConfusion h))
  · rw [PRD_g_loss, if_pos h]
    cases hr : prdReshapeHalves in_channel patch_size reals with
    | none => simp
    | some pr =>
      cases hf : prdReshapeHalves in_channel patch_size fakes with
      | none => simp
      | some pf =>
        obtain ⟨r1, r2⟩ := pr
        obtain ⟨f1, f2⟩ := pf
        simp only
        have hshapes : r1.shape = f1.shape := by
          rw [prdReshapeHalves_shape hr, prdReshapeHalves_shape hf, Tensor.numel_congr h]
        exact bind_ne_assertFail (PRD_forward_ne_assert net hshapes)
          (fun lr => bind_ne_assertFail (PRD_forward_ne_assert net hshapes.symm)
            (fun lf h => Except.noConfusion h))

theorem C6_assertion_behaviour_witness :
    PRD_forward (fun t => some t.data) ⟨[1], [0]⟩ ⟨[2], [0, 0]⟩ = Except.error PErr.assertFail
    ∧ PRD_forward (fun t => some t.data) ⟨[1], [0]⟩ ⟨[1], [5]⟩ ≠ Except.error PErr.assertFail :=
  ⟨(C6_assertion_behaviour (fun t => some t.data) 1 1 ⟨[1], [0]⟩ ⟨[2], [0, 0]⟩
      ⟨[1], [0]⟩ ⟨[1], [0]⟩).1 (by decide),
   (C6_assertion_behaviour (fun t => some t.data) 1 1 ⟨[1], [0]⟩ ⟨[1], [5]⟩
      ⟨[1], [0]⟩ ⟨[1], [0]⟩).2.2.1 rfl⟩

/-- Claim C10 counterexample: the claim requires every successful reshape to
have element count `2·k·in_channel·patch_size²` for a positive `k` (and every
other equal-shaped input to fail at the reshape), but an empty batch of
shape `[0, 3, 16, 16]` has 0 elements — not of that form for any positive
`k` — and its reshape succeeds, with inferred batch dimension 0. -/
theorem C10_counterexample :
    (prdReshapeHalves 3 16 ⟨[0, 3, 16, 16], []⟩).isSome = true
    ∧ ¬ ∃ k : ℕ, 0 < k ∧
        Tensor.numel ⟨[0, 3, 16, 16], []⟩ = 2 * k * (3 * (16 * 16)) := by
  refine ⟨by decide, ?_⟩
  rintro ⟨k, hk, hnum⟩
  have h0 : Tensor.numel ⟨[0, 3, 16, 16], []⟩ = 0 := rfl
  rw [h0] at hnum
  omega

/-- Claim C10 (amended): beyond the `reals.shape == fakes.shape` assertion,
the reshape step of `d_loss`/`g_loss` succeeds exactly when
`2 * in_channel * patch_size²` divides the total element count — that is,
the element count is `2·k·in_channel·patch_size²` for some nonnegative `k`
(`k = 0`, the empty batch, is allowed); for equal-shaped inputs whose
element count is not so divisible, the assertion passes but both losses fail
at the reshape with a tensor-library error, not an assertion failure. -/
theorem C10_reshape_characterization
    (net : Tensor → Option (List ℚ)) (in_channel patch_size : ℕ)
    (t reals fakes : Tensor)
    (hC : 0 < in_channel) (hp : 0 < patch_size) :
    ((prdReshapeHalves in_channel patch_size t).isSome ↔
      2 * (in_channel * (patch_size * patch_size)) ∣ t.numel)
    ∧ (reals.shape = fakes.shape →
        ¬ 2 * (in_channel * (patch_size * patch_size)) ∣ reals.numel →
        PRD_d_loss net in_channel patch_size reals fakes = Except.error PErr.shapeErr
        ∧ PRD_g_loss net in_channel patch_size reals fakes = Except.error PErr.shapeErr) := by
  have hd : 2 * (in_channel * (patch_size * patch_size)) ≠ 0 := by positivity
  have hdpos : 0 < 2 * (in_channel * (patch_size * patch_size)) := Nat.pos_of_ne_zero hd
  constructor
  · rw [prdReshapeHalves]
    by_cases hmod : t.numel % (2 * (in_channel * (patch_size * patch_size))) = 0
    · simp [hd, hmod, Nat.dvd_iff_mod_eq_zero]
    · simp only [if_neg (by simp [hmod] : ¬ (2 * (in_channel * (patch_size * patch_size)) ≠ 0
        ∧ t.numel % (2 * (in_channel * (patch_size * patch_size))) = 0))]
      simp [Nat.dvd_iff_mod_eq_zero, hmod]
  · intro hs hndvd
    have hmod : t.numel % (2 * (in_channel * (patch_size * patch_size))) = 0 → True := fun _ => trivial
    have hmodr : ¬ reals.numel % (2 * (in_channel * (patch_size * patch_size))) = 0 := by
      intro hcon
      exact hndvd (Nat.dvd_iff_mod_eq_zero.mpr hcon)
    have hnone : prdReshapeHalves in_channel patch_size reals = none := by
      rw [prdReshapeHalves]
      exact if_neg (by intro hcon; exact hmodr hcon.2)
    constructor
    · rw [PRD_d_loss, if_pos hs, hnone]
    · rw [PRD_g_loss, if_pos hs, hnone]

theorem C10_reshape_characterization_witness :
    ((prdReshapeHalves 3 16 ⟨[1, 3, 16, 16], []⟩).isSome ↔
      2 * (3 * (16 * 16)) ∣ Tensor.numel ⟨[1, 3, 16, 16], []⟩)
    ∧ PRD_d_loss (fun t => some t.data) 3 16 ⟨[1, 3, 16, 16], []⟩ ⟨[1, 3, 16, 16], []⟩ =
        Except.error PErr.shapeErr :=
  ⟨(C10_reshape_characterization (fun t => some t.data) 3 16 ⟨[1, 3, 16, 16], []⟩
      ⟨[1, 3, 16, 16], []⟩ ⟨[1, 3, 16, 16], []⟩ (by decide) (by decide)).1,
   ((C10_reshape_characterization (fun t => some t.data) 3 16 ⟨[1, 3, 16, 16], []⟩
      ⟨[1, 3, 16, 16], []⟩ ⟨[1, 3, 16, 16], []⟩ (by decide) (by decide)).2 rfl
      (by decide)).1⟩

end PatchLosses
